import Mathlib

/-
Verification of the iframe-resizing library (andsafe-AG/iframe-resizing).

The source under scrutiny is the standalone resizing script: the message
protocol types (Participant, Command, CommandResponse, IFrameResizingOptions),
the dispatcher sendResizeCommand, the observer bridge inside
initIFrameResizing, the lifecycle entry points initIFrameResizing and
autoInitIFrameResizing, and the module-load global registration.

The embedding is shallow: the event-driven JavaScript is modelled as explicit
state machines.  Each in-flight dispatch is a DispatchState stepped by
boundary-message and timer events exactly as the listener and timeout handler
in sendResizeCommand do; handler bodies are statement lists (HandlerOp) folded
over the state in source order, so statement ordering inside a handler is part
of the model.  Heights and payload values are kept polymorphic (the source
types the payload as a nested array of unknown), so every theorem about
payloads holds for zero, large integers and non-integer values alike.
-/

namespace IFrameResizing

/-- Participant roles, from the `participants` constant object in the source:
PARENT is the string tag parent, CHILD is the string tag child. -/
inductive Participant where
  | parent
  | child
deriving DecidableEq, Repr

/-- Command structure for iframe messaging, field for field from the source
interface: `payload : unknown[][]` becomes a nested list over an arbitrary
value type V. -/
structure Command (V : Type) where
  id : String
  sender : Participant
  receiver : Participant
  name : String
  payload : List (List V)
deriving DecidableEq, Repr

/-- Command response structure, field for field from the source interface;
`payload : unknown` becomes an arbitrary type P (the dispatcher never reads
it). -/
structure CommandResponse (P : Type) where
  id : String
  correspondingCommandId : String
  sender : Participant
  receiver : Participant
  payload : P
deriving DecidableEq, Repr

/-- A message posted across the boundary channel:
`window.parent.postMessage(command, targetOrigin)`. -/
structure PostedMessage (V : Type) where
  message : Command V
  targetOrigin : String
deriving DecidableEq, Repr

/-- The fixed command name the dispatcher emits. -/
def resizeCommandName : String := "resize"

/-- The timeout error message: the template literal in the source's timeout
callback, a fixed string. -/
def timeoutMessage : String := "Timeout exceeded for command resize"

/-- The timeout duration in milliseconds: the literal 20000 passed to
setTimeout in sendResizeCommand. -/
def timeoutMs : Nat := 20000

/-- The command built by sendResizeCommand for a height, given the fresh id
produced by the unique-ID generator (uuidv4 in the source). -/
def mkResizeCommand (V : Type) (freshId : String) (height : V) : Command V :=
  { id := freshId
    sender := Participant.child
    receiver := Participant.parent
    name := resizeCommandName
    payload := [[height]] }

/-- The boundary send performed by sendResizeCommand:
`window.parent.postMessage(command, '*')`. -/
def postResizeCommand (V : Type) (freshId : String) (height : V) : PostedMessage V :=
  { message := mkResizeCommand V freshId height
    targetOrigin := "*" }

/-- Outcome of a settled dispatch promise: resolve() carries no value,
reject(new Error(msg)) carries the error message. -/
inductive DispatchOutcome where
  | resolved
  | rejected (msg : String)
deriving DecidableEq, Repr

/-- State of one in-flight dispatch: whether the message listener is still
registered on window, whether the setTimeout timer is still pending, and the
promise's settlement (none while pending). -/
structure DispatchState where
  listenerActive : Bool
  timerActive : Bool
  outcome : Option DispatchOutcome
deriving DecidableEq, Repr

/-- State right after sendResizeCommand returns: the timer is started, the
listener is registered (before the command is posted), the promise pending. -/
def initialDispatchState : DispatchState :=
  { listenerActive := true, timerActive := true, outcome := none }

/-- Primitive statements a dispatch handler body can perform, in source
order: clearTimeout, window.removeEventListener, resolve(), reject(err). -/
inductive HandlerOp where
  | clearTimer
  | removeListener
  | resolveOp
  | rejectOp (msg : String)
deriving DecidableEq, Repr

/-- Promise settlement: a promise settles at most once, later resolve or
reject calls are ignored. -/
def settle (s : DispatchState) (r : DispatchOutcome) : DispatchState :=
  match s.outcome with
  | some _ => s
  | none => { s with outcome := some r }

/-- Effect of one handler statement on the dispatch state. -/
def applyOp (s : DispatchState) : HandlerOp → DispatchState
  | HandlerOp.clearTimer => { s with timerActive := false }
  | HandlerOp.removeListener => { s with listenerActive := false }
  | HandlerOp.resolveOp => settle s DispatchOutcome.resolved
  | HandlerOp.rejectOp m => settle s (DispatchOutcome.rejected m)

/-- Body of the listener's match branch, statement for statement:
clearTimeout(timeout); window.removeEventListener; resolve(). -/
def listenerMatchOps : List HandlerOp :=
  [HandlerOp.clearTimer, HandlerOp.removeListener, HandlerOp.resolveOp]

/-- Body of the setTimeout callback, statement for statement:
window.removeEventListener; reject(new Error(timeoutMessage)). -/
def timeoutHandlerOps : List HandlerOp :=
  [HandlerOp.removeListener, HandlerOp.rejectOp timeoutMessage]

/-- The listener's early-return guard, literally the source condition
`command.sender !== commandResponse.receiver || command.id !==
commandResponse.correspondingCommandId` (true means the message is ignored). -/
def listenerIgnores (V P : Type) (cmd : Command V) (resp : CommandResponse P) : Bool :=
  decide (cmd.sender ≠ resp.receiver) || decide (cmd.id ≠ resp.correspondingCommandId)

/-- The listener body: ignore a non-matching message, otherwise run the match
branch. -/
def listenerStep (V P : Type) (cmd : Command V) (s : DispatchState)
    (resp : CommandResponse P) : DispatchState :=
  if listenerIgnores V P cmd resp then s
  else listenerMatchOps.foldl applyOp s

/-- Events that can reach one in-flight dispatch: an inbound boundary message
(delivered to the listener only while it is registered) or the timer firing
(possible only while the timeout is pending; firing spends the one-shot
timer). -/
inductive DispatchEvent (P : Type) where
  | message (resp : CommandResponse P)
  | timerFire
deriving DecidableEq, Repr

/-- One step of the dispatch state machine. -/
def stepDispatch (V P : Type) (cmd : Command V) (s : DispatchState) :
    DispatchEvent P → DispatchState
  | DispatchEvent.message resp =>
      if s.listenerActive then listenerStep V P cmd s resp else s
  | DispatchEvent.timerFire =>
      if s.timerActive then
        timeoutHandlerOps.foldl applyOp { s with timerActive := false }
      else s

/-- Run a dispatch over a sequence of events. -/
def runDispatch (V P : Type) (cmd : Command V) (s : DispatchState)
    (events : List (DispatchEvent P)) : DispatchState :=
  events.foldl (stepDispatch V P cmd) s

/-- An inbound boundary message stamped with its arrival time in milliseconds
after the command was sent. -/
structure TimedMessage (P : Type) where
  time : Nat
  resp : CommandResponse P
deriving DecidableEq, Repr

/-- Delivery order seen by one dispatch: messages arriving before the 20000 ms
timer fires, then the timer event, then later messages. -/
def deliveryOrder (P : Type) (msgs : List (TimedMessage P)) : List (DispatchEvent P) :=
  ((msgs.filter (fun m => m.time < timeoutMs)).map (fun m => DispatchEvent.message m.resp))
    ++ [DispatchEvent.timerFire]
    ++ ((msgs.filter (fun m => ¬ m.time < timeoutMs)).map (fun m => DispatchEvent.message m.resp))

/-- The complete life of one dispatch given the timed inbound traffic. -/
def runTimedDispatch (V P : Type) (cmd : Command V) (msgs : List (TimedMessage P)) :
    DispatchState :=
  runDispatch V P cmd initialDispatchState (deliveryOrder P msgs)

/-- One entry of a ResizeObserver notification batch.  The DOM entry carries
several box sizes; the bridge destructures contentRect and reads its height,
so the model keeps the content-box height and the (unused) border-box height
side by side. -/
structure ResizeObserverEntry (V : Type) where
  contentRectHeight : V
  borderBoxHeight : V
deriving DecidableEq, Repr

/-- The ResizeObserver callback inside initIFrameResizing, as the list of
heights it dispatches in one invocation: `const entry = entries[0]; if
(!entry) return;` then one sendResizeCommand(contentRect.height). -/
def resizeObserverCallback (V : Type) (entries : List (ResizeObserverEntry V)) : List V :=
  match entries.head? with
  | none => []
  | some entry => [entry.contentRectHeight]

/-- Configuration options; the bridge only tests each hook for presence
before calling it, so the model keeps the presence bits. -/
structure IFrameResizingOptions where
  hasOnError : Bool
  hasCaptureError : Bool
deriving DecidableEq, Repr

/-- Observable actions of the bridge's dispatch-failure handler. -/
inductive BridgeEffect where
  | logWarn (msg : String)
  | onErrorHook (msg : String)
  | captureErrorHook (msg : String)
deriving DecidableEq, Repr

/-- The catch handler attached to sendResizeCommand(...) in
initIFrameResizing, statement for statement: console.warn(error.message);
if (onError) onError(error); if (captureError) captureError(error). -/
def dispatchFailureHandler (opts : IFrameResizingOptions) (errMsg : String) :
    List BridgeEffect :=
  [BridgeEffect.logWarn errMsg]
    ++ (if opts.hasOnError then [BridgeEffect.onErrorHook errMsg] else [])
    ++ (if opts.hasCaptureError then [BridgeEffect.captureErrorHook errMsg] else [])

/-- Document ready states relevant to autoInitIFrameResizing: the source only
compares readyState against the string loading. -/
inductive ReadyState where
  | loading
  | interactive
  | complete
deriving DecidableEq, Repr

/-- The environment a lifecycle entry point runs in: whether window is
undefined (isServerSide), the document's ready state, and whether
document.body is present. -/
structure BrowserEnv where
  serverSide : Bool
  readyState : ReadyState
  bodyPresent : Bool
deriving DecidableEq, Repr

/-- Observable actions performed synchronously by initIFrameResizing. -/
inductive InitEffect where
  | warnServerSide
  | warnNoBody
  | createObserver
  | observeBody
deriving DecidableEq, Repr

/-- The kind of cleanup function an entry point returns: the server-side
no-op arrow, the closure disconnecting the observer, or the late-bound
`() => cleanup()` of the deferred branch. -/
inductive CleanupFn where
  | noop
  | disconnectObserver
  | lateBound
deriving DecidableEq, Repr

/-- initIFrameResizing, branch for branch: warn and return a no-op on the
server side; otherwise create the observer, observe document.body when it is
present (warn when it is not), and return the disconnecting cleanup. -/
def initIFrameResizing (env : BrowserEnv) : List InitEffect × CleanupFn :=
  if env.serverSide then
    ([InitEffect.warnServerSide], CleanupFn.noop)
  else
    ([InitEffect.createObserver]
       ++ (if env.bodyPresent then [InitEffect.observeBody] else [InitEffect.warnNoBody]),
     CleanupFn.disconnectObserver)

/-- Result of autoInitIFrameResizing: the effects it performs synchronously,
whether it registered a DOMContentLoaded listener, and which cleanup it
returns. -/
structure AutoInitResult where
  syncEffects : List InitEffect
  listenerRegistered : Bool
  cleanup : CleanupFn
deriving DecidableEq, Repr

/-- autoInitIFrameResizing, branch for branch: server side returns a no-op
with no effects; readyState loading registers the DOMContentLoaded listener
and returns the late-bound cleanup without touching the observer; otherwise
it calls initIFrameResizing synchronously and returns its cleanup. -/
def autoInitIFrameResizing (env : BrowserEnv) : AutoInitResult :=
  if env.serverSide then
    { syncEffects := [], listenerRegistered := false, cleanup := CleanupFn.noop }
  else if env.readyState = ReadyState.loading then
    { syncEffects := [], listenerRegistered := true, cleanup := CleanupFn.lateBound }
  else
    let r := initIFrameResizing env
    { syncEffects := r.1, listenerRegistered := false, cleanup := r.2 }

/-- State of the deferred autoInit closure after the loading branch ran:
whether the DOMContentLoaded handler has executed (reassigning the `cleanup`
variable from the initial no-op arrow to the real disconnect), and whether
the observer it created is still connected. -/
structure DeferredState where
  initDone : Bool
  observerConnected : Bool
deriving DecidableEq, Repr

/-- State right after the loading branch of autoInitIFrameResizing returns:
the handler has not run and no observer exists yet. -/
def deferredStart : DeferredState :=
  { initDone := false, observerConnected := false }

/-- Events acting on the deferred closure: the one-shot DOMContentLoaded
event firing, or the caller invoking the returned `() => cleanup()`. -/
inductive DeferredEvent where
  | domContentLoaded
  | invokeReturnedCleanup
deriving DecidableEq, Repr

/-- Step of the deferred closure.  DOMContentLoaded runs initIFrameResizing
and stores its cleanup (the event fires at most once, hence the guard).  The
returned cleanup calls whichever function the `cleanup` variable currently
holds: the initial no-op before the handler ran, the observer disconnect
after. -/
def deferredStep (s : DeferredState) : DeferredEvent → DeferredState
  | DeferredEvent.domContentLoaded =>
      if s.initDone then s
      else { initDone := true, observerConnected := true }
  | DeferredEvent.invokeReturnedCleanup =>
      if s.initDone then { s with observerConnected := false }
      else s

/-- State of a ResizeObserver as cleanup sees it: whether it is currently
observing its target. -/
structure ObserverState where
  observing : Bool
deriving DecidableEq, Repr

/-- observer.disconnect(): stops observing everything, whatever the current
state (also valid on an observer that never attached or already
disconnected). -/
def observerDisconnect (_ : ObserverState) : ObserverState :=
  { observing := false }

/-- Statements a cleanup body can contain: the disconnect call, or a boundary
post (present in the statement alphabet so that the absence of dispatches
from cleanup is a statement about the body, not a tautology). -/
inductive CleanupStmt (V : Type) where
  | disconnect
  | post (msg : PostedMessage V)
deriving DecidableEq, Repr

/-- Body of the cleanup returned by initIFrameResizing, statement for
statement: `observer.disconnect();` and nothing else. -/
def initCleanupBody (V : Type) : List (CleanupStmt V) :=
  [CleanupStmt.disconnect]

/-- Body of the server-side no-op cleanup `() => {}`: empty. -/
def noopCleanupBody (V : Type) : List (CleanupStmt V) := []

/-- Run a cleanup body over an observer, collecting boundary posts. -/
def runCleanupBody (V : Type) (o : ObserverState) (stmts : List (CleanupStmt V)) :
    ObserverState × List (PostedMessage V) :=
  stmts.foldl
    (fun acc st =>
      match st with
      | CleanupStmt.disconnect => (observerDisconnect acc.1, acc.2)
      | CleanupStmt.post m => (acc.1, acc.2 ++ [m]))
    (o, [])

/-- Tags for the two exported entry points, to state which functions the
module-load shim publishes. -/
inductive ExportedFn where
  | initIFrameResizingFn
  | autoInitIFrameResizingFn
deriving DecidableEq, Repr

/-- The object assigned to window.IFrameResizing: init and autoInit fields
referencing exported functions. -/
structure IFrameResizingGlobal where
  init : ExportedFn
  autoInit : ExportedFn
deriving DecidableEq, Repr

/-- Global window state relevant to the shim: the window.IFrameResizing slot
(absent until assigned). -/
structure WindowState where
  iframeResizing : Option IFrameResizingGlobal
deriving DecidableEq, Repr

/-- The module-load side effect at the bottom of the script: if a global
window exists, assign window.IFrameResizing = \x7b init: initIFrameResizing,
autoInit: autoInitIFrameResizing \x7d; otherwise touch nothing. -/
def moduleLoadSideEffect (w : Option WindowState) : Option WindowState :=
  match w with
  | some _ =>
      some { iframeResizing :=
               some { init := ExportedFn.initIFrameResizingFn
                      autoInit := ExportedFn.autoInitIFrameResizingFn } }
  | none => none

/-- The dispatch invariant from the spec's data model: the listener and the
timer are live together and retired together, and the promise is pending
exactly while they are live. -/
def RetiredTogether (s : DispatchState) : Prop :=
  s.listenerActive = s.timerActive ∧ (s.outcome = none ↔ s.listenerActive = true)

/-- The only settlements the dispatcher can produce: still pending, resolved,
or rejected with the timeout message. -/
def OutcomeShape (s : DispatchState) : Prop :=
  s.outcome = none ∨ s.outcome = some DispatchOutcome.resolved ∨
    s.outcome = some (DispatchOutcome.rejected timeoutMessage)

lemma listenerIgnores_false_iff (V P : Type) (cmd : Command V) (resp : CommandResponse P) :
    listenerIgnores V P cmd resp = false ↔
      cmd.sender = resp.receiver ∧ cmd.id = resp.correspondingCommandId := by
  simp [listenerIgnores]

lemma listenerMatchOps_foldl (s : DispatchState) :
    listenerMatchOps.foldl applyOp s =
      { listenerActive := false, timerActive := false,
        outcome := some (s.outcome.getD DispatchOutcome.resolved) } := by
  cases h : s.outcome <;> simp [listenerMatchOps, List.foldl, applyOp, settle, h]

lemma timeoutHandlerOps_foldl (s : DispatchState) :
    timeoutHandlerOps.foldl applyOp { s with timerActive := false } =
      { listenerActive := false, timerActive := false,
        outcome := some (s.outcome.getD (DispatchOutcome.rejected timeoutMessage)) } := by
  cases h : s.outcome <;> simp [timeoutHandlerOps, List.foldl, applyOp, settle, h]

lemma stepDispatch_message_ignored (V P : Type) (cmd : Command V) (s : DispatchState)
    (resp : CommandResponse P) (h : listenerIgnores V P cmd resp = true) :
    stepDispatch V P cmd s (DispatchEvent.message resp) = s := by
  cases hl : s.listenerActive <;> simp [stepDispatch, hl, listenerStep, h]

lemma stepDispatch_message_inactive (V P : Type) (cmd : Command V) (s : DispatchState)
    (resp : CommandResponse P) (h : s.listenerActive = false) :
    stepDispatch V P cmd s (DispatchEvent.message resp) = s := by
  simp [stepDispatch, h]

lemma stepDispatch_message_match (V P : Type) (cmd : Command V) (s : DispatchState)
    (resp : CommandResponse P) (hl : s.listenerActive = true)
    (h : listenerIgnores V P cmd resp = false) :
    stepDispatch V P cmd s (DispatchEvent.message resp) =
      { listenerActive := false, timerActive := false,
        outcome := some (s.outcome.getD DispatchOutcome.resolved) } := by
  simp [stepDispatch, hl, listenerStep, h, listenerMatchOps_foldl]

lemma stepDispatch_timer_fires (V P : Type) (cmd : Command V) (s : DispatchState)
    (h : s.timerActive = true) :
    stepDispatch V P cmd s (DispatchEvent.timerFire : DispatchEvent P) =
      { listenerActive := false, timerActive := false,
        outcome := some (s.outcome.getD (DispatchOutcome.rejected timeoutMessage)) } := by
  simp [stepDispatch, h, timeoutHandlerOps_foldl]

lemma stepDispatch_timer_inactive (V P : Type) (cmd : Command V) (s : DispatchState)
    (h : s.timerActive = false) :
    stepDispatch V P cmd s (DispatchEvent.timerFire : DispatchEvent P) = s := by
  simp [stepDispatch, h]

lemma retired_initial : RetiredTogether initialDispatchState := by
  simp [RetiredTogether, initialDispatchState]

lemma retired_step (V P : Type) (cmd : Command V) (s : DispatchState) (e : DispatchEvent P)
    (h : RetiredTogether s) : RetiredTogether (stepDispatch V P cmd s e) := by
  obtain ⟨h1, h2⟩ := h
  cases e with
  | message resp =>
      cases hl : s.listenerActive with
      | false => rw [stepDispatch_message_inactive V P cmd s resp hl]; exact ⟨h1, h2⟩
      | true =>
          cases hig : listenerIgnores V P cmd resp with
          | true => rw [stepDispatch_message_ignored V P cmd s resp hig]; exact ⟨h1, h2⟩
          | false =>
              rw [stepDispatch_message_match V P cmd s resp hl hig]
              simp [RetiredTogether]
  | timerFire =>
      cases ht : s.timerActive with
      | false => rw [stepDispatch_timer_inactive V P cmd s ht]; exact ⟨h1, h2⟩
      | true =>
          rw [stepDispatch_timer_fires V P cmd s ht]
          simp [RetiredTogether]

lemma retired_run (V P : Type) (cmd : Command V) (s : DispatchState)
    (events : List (DispatchEvent P)) (h : RetiredTogether s) :
    RetiredTogether (runDispatch V P cmd s events) := by
  induction events generalizing s with
  | nil => exact h
  | cons e es ih => exact ih _ (retired_step V P cmd s e h)

lemma outcomeShape_initial : OutcomeShape initialDispatchState := by
  simp [OutcomeShape, initialDispatchState]

lemma outcomeShape_step (V P : Type) (cmd : Command V) (s : DispatchState) (e : DispatchEvent P)
    (h : OutcomeShape s) : OutcomeShape (stepDispatch V P cmd s e) := by
  cases e with
  | message resp =>
      cases hl : s.listenerActive with
      | false => rw [stepDispatch_message_inactive V P cmd s resp hl]; exact h
      | true =>
          cases hig : listenerIgnores V P cmd resp with
          | true => rw [stepDispatch_message_ignored V P cmd s resp hig]; exact h
          | false =>
              rw [stepDispatch_message_match V P cmd s resp hl hig]
              rcases h with h | h | h <;> simp [OutcomeShape, h]
  | timerFire =>
      cases ht : s.timerActive with
      | false => rw [stepDispatch_timer_inactive V P cmd s ht]; exact h
      | true =>
          rw [stepDispatch_timer_fires V P cmd s ht]
          rcases h with h | h | h <;> simp [OutcomeShape, h]

lemma outcomeShape_run (V P : Type) (cmd : Command V) (s : DispatchState)
    (events : List (DispatchEvent P)) (h : OutcomeShape s) :
    OutcomeShape (runDispatch V P cmd s events) := by
  induction events generalizing s with
  | nil => exact h
  | cons e es ih => exact ih _ (outcomeShape_step V P cmd s e h)

lemma stepDispatch_settled (V P : Type) (cmd : Command V) (s : DispatchState)
    (e : DispatchEvent P) (hR : RetiredTogether s) (ho : s.outcome ≠ none) :
    stepDispatch V P cmd s e = s := by
  obtain ⟨h1, h2⟩ := hR
  have hl : s.listenerActive = false := by
    cases hl : s.listenerActive with
    | false => rfl
    | true => exact absurd (h2.mpr hl) ho
  have ht : s.timerActive = false := by rw [← h1]; exact hl
  cases e with
  | message resp => exact stepDispatch_message_inactive V P cmd s resp hl
  | timerFire => exact stepDispatch_timer_inactive V P cmd s ht

lemma runDispatch_settled (V P : Type) (cmd : Command V) (s : DispatchState)
    (events : List (DispatchEvent P)) (hR : RetiredTogether s) (ho : s.outcome ≠ none) :
    runDispatch V P cmd s events = s := by
  induction events with
  | nil => rfl
  | cons e es ih =>
      show runDispatch V P cmd (stepDispatch V P cmd s e) es = s
      rw [stepDispatch_settled V P cmd s e hR ho]
      exact ih

lemma runDispatch_messages_inactive (V P : Type) (cmd : Command V) (s : DispatchState)
    (events : List (DispatchEvent P)) (h : s.listenerActive = false)
    (hev : DispatchEvent.timerFire ∉ events) :
    runDispatch V P cmd s events = s := by
  induction events with
  | nil => rfl
  | cons e es ih =>
      cases e with
      | timerFire => exact absurd (by simp) hev
      | message r =>
          show runDispatch V P cmd (stepDispatch V P cmd s (DispatchEvent.message r)) _ = s
          rw [stepDispatch_message_inactive V P cmd s r h]
          exact ih (fun hx => hev (by simp [hx]))

lemma runDispatch_messages_ignored (V P : Type) (cmd : Command V) (s : DispatchState)
    (events : List (DispatchEvent P))
    (h : ∀ r, DispatchEvent.message r ∈ events → listenerIgnores V P cmd r = true)
    (hev : DispatchEvent.timerFire ∉ events) :
    runDispatch V P cmd s events = s := by
  induction events with
  | nil => rfl
  | cons e es ih =>
      cases e with
      | timerFire => exact absurd (by simp) hev
      | message r =>
          show runDispatch V P cmd (stepDispatch V P cmd s (DispatchEvent.message r)) _ = s
          rw [stepDispatch_message_ignored V P cmd s r (h r (by simp))]
          exact ih (fun x hx => h x (by simp [hx])) (fun hx => hev (by simp [hx]))

lemma runTimedDispatch_eq (V P : Type) (cmd : Command V) (msgs : List (TimedMessage P)) :
    runTimedDispatch V P cmd msgs =
      runDispatch V P cmd
        (stepDispatch V P cmd
          (runDispatch V P cmd initialDispatchState
            ((msgs.filter (fun m => m.time < timeoutMs)).map (fun m => DispatchEvent.message m.resp)))
          DispatchEvent.timerFire)
        ((msgs.filter (fun m => ¬ m.time < timeoutMs)).map (fun m => DispatchEvent.message m.resp)) := by
  show List.foldl _ _ _ = _
  rw [deliveryOrder, List.foldl_append, List.foldl_append]
  rfl

lemma runTimedDispatch_final (V P : Type) (cmd : Command V) (msgs : List (TimedMessage P)) :
    (runTimedDispatch V P cmd msgs).outcome ≠ none ∧
      (runTimedDispatch V P cmd msgs).listenerActive = false ∧
      (runTimedDispatch V P cmd msgs).timerActive = false ∧
      RetiredTogether (runTimedDispatch V P cmd msgs) ∧
      OutcomeShape (runTimedDispatch V P cmd msgs) := by
  rw [runTimedDispatch_eq]
  set s1 := runDispatch V P cmd initialDispatchState
    ((msgs.filter (fun m => m.time < timeoutMs)).map (fun m => DispatchEvent.message m.resp)) with hs1
  have hR1 : RetiredTogether s1 := retired_run V P cmd _ _ retired_initial
  have hS1 : OutcomeShape s1 := outcomeShape_run V P cmd _ _ outcomeShape_initial
  have hnotimer : (DispatchEvent.timerFire : DispatchEvent P) ∉
      (msgs.filter (fun m => ¬ m.time < timeoutMs)).map (fun m => DispatchEvent.message m.resp) := by
    simp
  cases ht : s1.timerActive with
  | true =>
      rw [stepDispatch_timer_fires V P cmd s1 ht]
      rw [runDispatch_messages_inactive V P cmd _ _ rfl hnotimer]
      refine ⟨by simp, rfl, rfl, by simp [RetiredTogether], ?_⟩
      rcases hS1 with h | h | h <;> simp [OutcomeShape, h]
  | false =>
      have hl : s1.listenerActive = false := by rw [hR1.1]; exact ht
      have ho : s1.outcome ≠ none := by
        intro hnone
        have h2 := hR1.2.mp hnone
        rw [hl] at h2
        exact Bool.false_ne_true h2
      rw [stepDispatch_timer_inactive V P cmd s1 ht]
      rw [runDispatch_messages_inactive V P cmd _ _ hl hnotimer]
      exact ⟨ho, hl, ht, hR1, hS1⟩

/-- Claim C1: a dispatch resolves on an inbound boundary message exactly when
the message's receiver equals the command's sender and its
correspondingCommandId equals the command's id; a message failing either
condition is ignored and leaves the dispatch pending; and with two concurrent
in-flight dispatches, a response correlated to the first settles only the
first while the second still times out independently. -/
theorem dispatch_resolves_iff_matching_response (V P : Type) (cmd : Command V)
    (resp : CommandResponse P) :
    ((stepDispatch V P cmd initialDispatchState (DispatchEvent.message resp)).outcome
        = some DispatchOutcome.resolved ↔
      cmd.sender = resp.receiver ∧ cmd.id = resp.correspondingCommandId) ∧
    (listenerIgnores V P cmd resp = true →
      stepDispatch V P cmd initialDispatchState (DispatchEvent.message resp)
        = initialDispatchState) ∧
    (∀ (cmdB : Command V) (t : Nat), t < timeoutMs →
      cmd.sender = resp.receiver → cmd.id = resp.correspondingCommandId →
      cmd.id ≠ cmdB.id →
      (runTimedDispatch V P cmd [⟨t, resp⟩]).outcome = some DispatchOutcome.resolved ∧
      (runTimedDispatch V P cmdB [⟨t, resp⟩]).outcome
        = some (DispatchOutcome.rejected timeoutMessage)) := by
  refine ⟨?_, ?_, ?_⟩
  · cases hig : listenerIgnores V P cmd resp with
    | true =>
        rw [stepDispatch_message_ignored V P cmd _ resp hig]
        constructor
        · intro hres
          exact absurd hres (by simp [initialDispatchState])
        · intro hAB
          have hfalse := (listenerIgnores_false_iff V P cmd resp).mpr hAB
          rw [hig] at hfalse
          exact absurd hfalse (by simp)
    | false =>
        rw [stepDispatch_message_match V P cmd _ resp rfl hig]
        simpa [initialDispatchState] using (listenerIgnores_false_iff V P cmd resp).mp hig
  · intro hig
    exact stepDispatch_message_ignored V P cmd _ resp hig
  · intro cmdB t ht h1 h2 hne
    have hig : listenerIgnores V P cmd resp = false :=
      (listenerIgnores_false_iff V P cmd resp).mpr ⟨h1, h2⟩
    have higB : listenerIgnores V P cmdB resp = true := by
      have : cmdB.id ≠ resp.correspondingCommandId := by
        rw [← h2]
        exact fun hc => hne hc.symm
      simp [listenerIgnores, this]
    have hdel : deliveryOrder P [⟨t, resp⟩] =
        [DispatchEvent.message resp, DispatchEvent.timerFire] := by
      simp [deliveryOrder, ht]
    constructor
    · show (runDispatch V P cmd initialDispatchState (deliveryOrder P [⟨t, resp⟩])).outcome = _
      rw [hdel]
      show (stepDispatch V P cmd
        (stepDispatch V P cmd initialDispatchState (DispatchEvent.message resp))
        DispatchEvent.timerFire).outcome = _
      rw [stepDispatch_message_match V P cmd _ resp rfl hig]
      rw [stepDispatch_timer_inactive V P cmd _ rfl]
      rfl
    · show (runDispatch V P cmdB initialDispatchState (deliveryOrder P [⟨t, resp⟩])).outcome = _
      rw [hdel]
      show (stepDispatch V P cmdB
        (stepDispatch V P cmdB initialDispatchState (DispatchEvent.message resp))
        DispatchEvent.timerFire).outcome = _
      rw [stepDispatch_message_ignored V P cmdB _ resp higB]
      rw [stepDispatch_timer_fires V P cmdB _ rfl]
      rfl

/-- Witness for C1: two concurrent resize dispatches with ids a and b; a
response correlated to a (receiver child) resolves the first dispatch while
the second still times out. -/
theorem dispatch_resolves_iff_matching_response_witness :
    (runTimedDispatch Nat Nat (mkResizeCommand Nat "a" 5)
        [⟨100, ⟨"r1", "a", Participant.parent, Participant.child, 0⟩⟩]).outcome
      = some DispatchOutcome.resolved ∧
    (runTimedDispatch Nat Nat (mkResizeCommand Nat "b" 7)
        [⟨100, ⟨"r1", "a", Participant.parent, Participant.child, 0⟩⟩]).outcome
      = some (DispatchOutcome.rejected timeoutMessage) :=
  (dispatch_resolves_iff_matching_response Nat Nat (mkResizeCommand Nat "a" 5)
      ⟨"r1", "a", Participant.parent, Participant.child, 0⟩).2.2
    (mkResizeCommand Nat "b" 7) 100 (by decide) (by decide) (by decide) (by decide)

/-- Claim C2: dispatching a height h builds a Command with sender child,
receiver parent, name resize, payload exactly the nested sequence with h as
its only element, id the fresh identifier from the unique-ID generator, and
posts it with the unrestricted destination-origin marker; this holds for
every value type, hence for zero, large integers and non-integer heights. -/
theorem resize_command_shape (V : Type) (freshId : String) (height : V) :
    (mkResizeCommand V freshId height).id = freshId ∧
    (mkResizeCommand V freshId height).sender = Participant.child ∧
    (mkResizeCommand V freshId height).receiver = Participant.parent ∧
    (mkResizeCommand V freshId height).name = "resize" ∧
    (mkResizeCommand V freshId height).payload = [[height]] ∧
    (postResizeCommand V freshId height).message = mkResizeCommand V freshId height ∧
    (postResizeCommand V freshId height).targetOrigin = "*" :=
  ⟨rfl, rfl, rfl, rfl, rfl, rfl, rfl⟩

/-- Claim C3: when no matching response arrives within 20000 ms of sending, a
resize dispatch ends rejected with the timeout error message, which names the
resize command; the listener is removed, and in the timeout handler the
listener removal statement precedes the rejection statement. -/
theorem dispatch_timeout_behavior (V P : Type) (freshId : String) (height : V)
    (msgs : List (TimedMessage P))
    (h : ∀ m ∈ msgs, m.time < timeoutMs →
      listenerIgnores V P (mkResizeCommand V freshId height) m.resp = true) :
    runTimedDispatch V P (mkResizeCommand V freshId height) msgs =
      { listenerActive := false, timerActive := false,
        outcome := some (DispatchOutcome.rejected timeoutMessage) } ∧
    timeoutMessage = "Timeout exceeded for command " ++ (mkResizeCommand V freshId height).name ∧
    timeoutHandlerOps.indexOf HandlerOp.removeListener <
      timeoutHandlerOps.indexOf (HandlerOp.rejectOp timeoutMessage) := by
  refine ⟨?_, rfl, by decide⟩
  rw [runTimedDispatch_eq]
  have hpre : runDispatch V P (mkResizeCommand V freshId height) initialDispatchState
      ((msgs.filter (fun m => m.time < timeoutMs)).map (fun m => DispatchEvent.message m.resp))
      = initialDispatchState := by
    apply runDispatch_messages_ignored
    · intro r hr
      simp only [List.mem_map, List.mem_filter] at hr
      obtain ⟨m, ⟨hm, hlt⟩, hresp⟩ := hr
      have hr' : m.resp = r := by
        injection hresp
      rw [← hr']
      exact h m hm (by simpa using hlt)
    · simp
  rw [hpre]
  rw [stepDispatch_timer_fires V P _ initialDispatchState rfl]
  rw [runDispatch_messages_inactive V P _ _ _ rfl (by simp)]
  rfl

/-- Witness for C3: a dispatch with id x sees one early non-matching response
and one matching response arriving after the timeout; it ends rejected with
the timeout message. -/
theorem dispatch_timeout_behavior_witness :
    runTimedDispatch Nat Nat (mkResizeCommand Nat "x" 3)
        [⟨50, ⟨"q", "other", Participant.parent, Participant.child, 0⟩⟩,
         ⟨30000, ⟨"p", "x", Participant.parent, Participant.child, 0⟩⟩] =
      { listenerActive := false, timerActive := false,
        outcome := some (DispatchOutcome.rejected timeoutMessage) } :=
  (dispatch_timeout_behavior Nat Nat "x" 3
      [⟨50, ⟨"q", "other", Participant.parent, Participant.child, 0⟩⟩,
       ⟨30000, ⟨"p", "x", Participant.parent, Participant.child, 0⟩⟩]
      (by decide)).1

/-- Claim C4: every timed dispatch settles in exactly one of resolution or
timeout rejection, never both and never neither; the listener is removed on
both completion paths; the listener and timer are retired together in every
reachable state; and once settled, a further inbound message (a late matching
response included) leaves the dispatch state unchanged. -/
theorem dispatch_settles_exactly_once (V P : Type) (cmd : Command V)
    (msgs : List (TimedMessage P)) :
    Xor' ((runTimedDispatch V P cmd msgs).outcome = some DispatchOutcome.resolved)
      ((runTimedDispatch V P cmd msgs).outcome
        = some (DispatchOutcome.rejected timeoutMessage)) ∧
    (runTimedDispatch V P cmd msgs).listenerActive = false ∧
    (∀ events : List (DispatchEvent P),
      RetiredTogether (runDispatch V P cmd initialDispatchState events)) ∧
    (∀ resp : CommandResponse P,
      stepDispatch V P cmd (runTimedDispatch V P cmd msgs) (DispatchEvent.message resp)
        = runTimedDispatch V P cmd msgs) := by
  obtain ⟨ho, hl, ht, hR, hS⟩ := runTimedDispatch_final V P cmd msgs
  refine ⟨?_, hl, ?_, ?_⟩
  · rcases hS with h | h | h
    · exact absurd h ho
    · exact Or.inl ⟨h, by rw [h]; simp⟩
    · exact Or.inr ⟨h, by rw [h]; simp⟩
  · intro events
    exact retired_run V P cmd _ events retired_initial
  · intro resp
    exact stepDispatch_settled V P cmd _ (DispatchEvent.message resp) hR ho

/-- Claim C5: an empty size-change notification batch dispatches nothing;
a non-empty batch dispatches exactly one height, the content-box height of
the first entry, ignoring all later entries and the border-box height. -/
theorem observer_callback_first_entry (V : Type) :
    resizeObserverCallback V [] = [] ∧
    (∀ (e : ResizeObserverEntry V) (rest : List (ResizeObserverEntry V)),
      resizeObserverCallback V (e :: rest) = [e.contentRectHeight]) ∧
    (∀ (e : ResizeObserverEntry V) (rest : List (ResizeObserverEntry V)),
      (resizeObserverCallback V (e :: rest)).length = 1) ∧
    (∀ (h b1 b2 : V) (rest1 rest2 : List (ResizeObserverEntry V)),
      resizeObserverCallback V (⟨h, b1⟩ :: rest1) =
        resizeObserverCallback V (⟨h, b2⟩ :: rest2)) :=
  ⟨rfl, fun _ _ => rfl, fun _ _ => rfl, fun _ _ _ _ _ => rfl⟩

/-- Claim C6: on dispatch failure the bridge logs a warning first, then calls
the onError hook when present, then the captureError hook when present, in
exactly that order; with neither hook supplied the failure is only logged. -/
theorem bridge_failure_hook_order (errMsg : String) :
    dispatchFailureHandler ⟨true, true⟩ errMsg =
      [BridgeEffect.logWarn errMsg, BridgeEffect.onErrorHook errMsg,
       BridgeEffect.captureErrorHook errMsg] ∧
    dispatchFailureHandler ⟨true, false⟩ errMsg =
      [BridgeEffect.logWarn errMsg, BridgeEffect.onErrorHook errMsg] ∧
    dispatchFailureHandler ⟨false, true⟩ errMsg =
      [BridgeEffect.logWarn errMsg, BridgeEffect.captureErrorHook errMsg] ∧
    dispatchFailureHandler ⟨false, false⟩ errMsg = [BridgeEffect.logWarn errMsg] ∧
    (∀ opts : IFrameResizingOptions,
      (dispatchFailureHandler opts errMsg).head? = some (BridgeEffect.logWarn errMsg)) := by
  refine ⟨rfl, rfl, rfl, rfl, fun opts => ?_⟩
  obtain ⟨a, b⟩ := opts
  cases a <;> cases b <;> rfl

/-- Claim C7: in a browser context, autoInit with readyState loading performs
no synchronous observer work and registers the ready-event listener that,
when fired, runs the immediate initialization and records its cleanup; with
readyState past loading it runs the immediate initialization synchronously
(observing the body when present) and returns its cleanup directly. -/
theorem autoInit_branching (env : BrowserEnv) (hb : env.serverSide = false) :
    (env.readyState = ReadyState.loading →
      autoInitIFrameResizing env =
        { syncEffects := [], listenerRegistered := true, cleanup := CleanupFn.lateBound } ∧
      deferredStep deferredStart DeferredEvent.domContentLoaded =
        { initDone := true, observerConnected := true }) ∧
    (env.readyState ≠ ReadyState.loading →
      autoInitIFrameResizing env =
        { syncEffects := (initIFrameResizing env).1, listenerRegistered := false,
          cleanup := (initIFrameResizing env).2 } ∧
      (initIFrameResizing env).2 = CleanupFn.disconnectObserver ∧
      (env.bodyPresent = true →
        InitEffect.observeBody ∈ (autoInitIFrameResizing env).syncEffects)) := by
  constructor
  · intro hload
    refine ⟨?_, rfl⟩
    simp [autoInitIFrameResizing, hb, hload]
  · intro hnot
    refine ⟨?_, ?_, ?_⟩
    · simp [autoInitIFrameResizing, hb, hnot]
    · simp [initIFrameResizing, hb]
    · intro hbody
      simp [autoInitIFrameResizing, initIFrameResizing, hb, hnot, hbody]

/-- Witness for C7: with readyState loading autoInit defers and returns the
late-bound cleanup; with readyState complete it observes the body
synchronously and returns the disconnecting cleanup. -/
theorem autoInit_branching_witness :
    autoInitIFrameResizing ⟨false, ReadyState.loading, true⟩ =
      { syncEffects := [], listenerRegistered := true, cleanup := CleanupFn.lateBound } ∧
    autoInitIFrameResizing ⟨false, ReadyState.complete, true⟩ =
      { syncEffects := (initIFrameResizing ⟨false, ReadyState.complete, true⟩).1,
        listenerRegistered := false,
        cleanup := (initIFrameResizing ⟨false, ReadyState.complete, true⟩).2 } ∧
    InitEffect.observeBody ∈
      (autoInitIFrameResizing ⟨false, ReadyState.complete, true⟩).syncEffects :=
  ⟨((autoInit_branching ⟨false, ReadyState.loading, true⟩ rfl).1 rfl).1,
   ((autoInit_branching ⟨false, ReadyState.complete, true⟩ rfl).2 (by decide)).1,
   ((autoInit_branching ⟨false, ReadyState.complete, true⟩ rfl).2 (by decide)).2.2 rfl⟩

/-- Claim C8: the cleanup returned by a deferred autoInit is late-bound:
invoking it runs whichever cleanup is current (a no-op before the deferred
initialization has run, the real observer disconnect after), and invoking it
before the ready event fires does not suppress the pending deferred
initialization. -/
theorem deferred_cleanup_late_bound (s : DeferredState) :
    (s.initDone = false →
      deferredStep s DeferredEvent.invokeReturnedCleanup = s) ∧
    (s.initDone = true →
      deferredStep s DeferredEvent.invokeReturnedCleanup =
        { s with observerConnected := false }) ∧
    (s.initDone = false →
      deferredStep (deferredStep s DeferredEvent.invokeReturnedCleanup)
          DeferredEvent.domContentLoaded =
        { initDone := true, observerConnected := true }) := by
  refine ⟨fun h => ?_, fun h => ?_, fun h => ?_⟩
  · simp [deferredStep, h]
  · simp [deferredStep, h]
  · simp [deferredStep, h]

/-- Witness for C8: from the deferred start state, an early cleanup call is a
no-op and the subsequent ready event still runs the initialization; after the
ready event, the same cleanup disconnects the observer. -/
theorem deferred_cleanup_late_bound_witness :
    deferredStep deferredStart DeferredEvent.invokeReturnedCleanup = deferredStart ∧
    deferredStep (deferredStep deferredStart DeferredEvent.invokeReturnedCleanup)
        DeferredEvent.domContentLoaded =
      { initDone := true, observerConnected := true } ∧
    deferredStep { initDone := true, observerConnected := true }
        DeferredEvent.invokeReturnedCleanup =
      { initDone := true, observerConnected := false } :=
  ⟨(deferred_cleanup_late_bound deferredStart).1 rfl,
   (deferred_cleanup_late_bound deferredStart).2.2 rfl,
   (deferred_cleanup_late_bound { initDone := true, observerConnected := true }).2.1 rfl⟩

/-- Claim C9: every cleanup an entry point returns is idempotent and
dispatches nothing: the init cleanup body posts no boundary message and
repeating it changes nothing (also from a never-attached or
already-disconnected observer), the server-side no-op cleanup posts nothing,
and repeating the late-bound deferred cleanup equals invoking it once. -/
theorem cleanup_idempotent_no_dispatch (V : Type) (o : ObserverState) :
    (runCleanupBody V o (initCleanupBody V)).2 = [] ∧
    (runCleanupBody V o (noopCleanupBody V)).2 = [] ∧
    runCleanupBody V (runCleanupBody V o (initCleanupBody V)).1 (initCleanupBody V)
      = runCleanupBody V o (initCleanupBody V) ∧
    runCleanupBody V { observing := false } (initCleanupBody V)
      = ({ observing := false }, []) ∧
    runCleanupBody V o (noopCleanupBody V) = (o, []) ∧
    (∀ s : DeferredState,
      deferredStep (deferredStep s DeferredEvent.invokeReturnedCleanup)
          DeferredEvent.invokeReturnedCleanup
        = deferredStep s DeferredEvent.invokeReturnedCleanup) := by
  refine ⟨rfl, rfl, rfl, rfl, rfl, fun s => ?_⟩
  cases h : s.initDone <;> simp [deferredStep, h]

/-- Claim C10: at module load, when a global window exists the script
publishes both entry points on it as window.IFrameResizing with init and
autoInit referencing the exported functions; when no window exists the global
state is left untouched. -/
theorem module_load_global_registration (w : WindowState) :
    moduleLoadSideEffect (some w) =
      some { iframeResizing :=
               some { init := ExportedFn.initIFrameResizingFn
                      autoInit := ExportedFn.autoInitIFrameResizingFn } } ∧
    moduleLoadSideEffect none = none :=
  ⟨rfl, rfl⟩

end IFrameResizing
